import Mathlib

/-!
Shallow embedding of the flacparse library (src/src/lib.rs): a FLAC
metadata-block scanner and Vorbis-comment decoder operating over a
sequential byte stream.  The byte cursor is modelled as the list of bytes
remaining in the stream; every fallible step returns the value together
with the rest of the stream, an io::Error, or a panic outcome (the
assert_eq! in read_n).
-/

namespace Flacparse

/-- A byte of the input stream (Rust u8). -/
abbrev Byte := Fin 256

/-- The byte cursor: the bytes remaining in the sequential stream. -/
abbrev ByteStream := List Byte

/-- The io::ErrorKind values this library produces. -/
inductive ErrKind where
  | invalidData
  | unexpectedEof
deriving DecidableEq

/-- An io::Error: its kind and its message. -/
structure IOErr where
  kind : ErrKind
  msg : String
deriving DecidableEq

/-- Error of Read::read_exact (and byteorder read_u32) on a short stream. -/
def eofErr : IOErr := ⟨.unexpectedEof, "failed to fill whole buffer"⟩

/-- Error of Read::read_to_string on bytes that are not valid UTF-8. -/
def utf8Err : IOErr := ⟨.invalidData, "stream did not contain valid UTF-8"⟩

/-- src/src/lib.rs line 139. -/
def noCommentErr : IOErr := ⟨.unexpectedEof, "no comment block"⟩

/-- src/src/lib.rs line 168. -/
def malformedCommentErr : IOErr :=
  ⟨.invalidData, "malformed FLAC file, could not split user comment"⟩

/-- src/src/lib.rs line 96. -/
def notFlacFileErr : IOErr := ⟨.invalidData, "could not parse as a flac file"⟩

/-- src/src/lib.rs line 113. -/
def noMetadataErr : IOErr := ⟨.invalidData, "could not parse any metadata"⟩

/-- Outcome of a parsing step: success (value and remaining stream),
an io::Error, or a panic (the assert_eq! in read_n, line 182). -/
inductive PResult (α : Type) where
  | ok : α → ByteStream → PResult α
  | err : IOErr → PResult α
  | panicked : PResult α
deriving DecidableEq

/-- byteorder ReadBytesExt::read_u32::<LittleEndian>: reads 4 bytes
(read_exact semantics: UnexpectedEof on a short stream). -/
def read_u32_le (s : ByteStream) : Except IOErr (Nat × ByteStream) :=
  match s with
  | b0 :: b1 :: b2 :: b3 :: rest =>
      .ok (b0.val + b1.val * 2 ^ 8 + b2.val * 2 ^ 16 + b3.val * 2 ^ 24, rest)
  | _ => .error eofErr

/-- BigEndian::read_u32 of the block-header buffer after its byte 0 has been
zeroed (src/src/lib.rs lines 135-136): the 24-bit big-endian block length. -/
def read_u32_be_masked (b1 b2 b3 : Byte) : Nat :=
  b1.val * 2 ^ 16 + b2.val * 2 ^ 8 + b3.val

/-- Is a byte a UTF-8 continuation byte (0x80-0xBF)? -/
def isCont (b : Nat) : Bool := 0x80 ≤ b && b < 0xC0

/-- UTF-8 decoding of a byte sequence, as validated by Rust's
Read::read_to_string / str::from_utf8: rejects stray or missing
continuation bytes, overlong encodings, surrogate code points and code
points above 0x10FFFF.  The fuel argument only bounds the recursion; one
unit is spent per decoded character and the caller passes the byte count. -/
def utf8DecodeAux : Nat → List Nat → Option (List Char)
  | _, [] => some []
  | 0, _ :: _ => none
  | fuel + 1, b :: bs =>
    if b < 0x80 then
      (utf8DecodeAux fuel bs).map (fun cs => Char.ofNat b :: cs)
    else if b < 0xC0 then
      none
    else if b < 0xE0 then
      match bs with
      | b1 :: bs1 =>
        if isCont b1 then
          let cp := (b - 0xC0) * 0x40 + (b1 - 0x80)
          if 0x80 ≤ cp then
            (utf8DecodeAux fuel bs1).map (fun cs => Char.ofNat cp :: cs)
          else none
        else none
      | [] => none
    else if b < 0xF0 then
      match bs with
      | b1 :: b2 :: bs2 =>
        if isCont b1 && isCont b2 then
          let cp := (b - 0xE0) * 0x1000 + (b1 - 0x80) * 0x40 + (b2 - 0x80)
          if 0x800 ≤ cp ∧ (cp < 0xD800 ∨ 0xE000 ≤ cp) then
            (utf8DecodeAux fuel bs2).map (fun cs => Char.ofNat cp :: cs)
          else none
        else none
      | _ => none
    else if b < 0xF8 then
      match bs with
      | b1 :: b2 :: b3 :: bs3 =>
        if isCont b1 && isCont b2 && isCont b3 then
          let cp := (b - 0xF0) * 0x40000 + (b1 - 0x80) * 0x1000 +
            (b2 - 0x80) * 0x40 + (b3 - 0x80)
          if 0x10000 ≤ cp ∧ cp ≤ 0x10FFFF then
            (utf8DecodeAux fuel bs3).map (fun cs => Char.ofNat cp :: cs)
          else none
        else none
      | _ => none
    else none

/-- UTF-8 decode of a byte stream fragment. -/
def utf8Decode (bs : List Byte) : Option (List Char) :=
  utf8DecodeAux bs.length (bs.map Fin.val)

/-- read_n (src/src/lib.rs lines 177-184): `reader.take(n).read_to_string`
reads the available bytes up to n and validates them as UTF-8 (io::Error
of kind InvalidData on failure); then `assert_eq!(bytes_to_read, n)`
panics when fewer than n bytes were available. -/
def read_n (n : Nat) (s : ByteStream) : PResult String :=
  match utf8Decode (s.take n) with
  | none => .err utf8Err
  | some cs => if n ≤ s.length then .ok (String.mk cs) (s.drop n) else .panicked

/-- Rust str::split('=') over the characters of the decoded text: the
pieces between every occurrence of the separator. -/
def splitEq : List Char → List (List Char)
  | [] => [[]]
  | c :: cs =>
    if c = '=' then [] :: splitEq cs
    else
      match splitEq cs with
      | [] => [[c]]
      | p :: ps => (c :: p) :: ps

/-- HashMap<String, String> modelled as an association list with unique
keys; only membership and per-key lookup are observable. -/
abbrev Tags := List (String × String)

/-- HashMap::insert: overwrite the binding of an existing key, otherwise
add a new binding. -/
def insertTag (m : Tags) (k v : String) : Tags :=
  if m.any (fun p => p.1 == k) then
    m.map (fun p => if p.1 == k then (k, v) else p)
  else m ++ [(k, v)]

/-- HashMap::get for string keys. -/
def getTag (m : Tags) (k : String) : Option String :=
  (m.find? (fun p => p.1 == k)).map (fun p => p.2)

/-- Represents a Vorbis comment block (src/src/lib.rs lines 27-31). -/
structure VorbisMetadata where
  vendor_string : String
  user_comments : Tags
deriving DecidableEq

/-- The generic metadata result (src/src/lib.rs lines 56-59). -/
structure MusicMetaData where
  map : Tags
deriving DecidableEq

/-- MusicData::title for VorbisMetadata. -/
def VorbisMetadata.title (m : VorbisMetadata) : Option String :=
  getTag m.user_comments "TITLE"

/-- MusicData::artist for VorbisMetadata. -/
def VorbisMetadata.artist (m : VorbisMetadata) : Option String :=
  getTag m.user_comments "ARTIST"

/-- MusicData::album for VorbisMetadata. -/
def VorbisMetadata.album (m : VorbisMetadata) : Option String :=
  getTag m.user_comments "ALBUM"

/-- MusicData::tracknumber for VorbisMetadata. -/
def VorbisMetadata.tracknumber (m : VorbisMetadata) : Option String :=
  getTag m.user_comments "TRACKNUMBER"

/-- MusicData::title for MusicMetaData. -/
def MusicMetaData.title (m : MusicMetaData) : Option String :=
  getTag m.map "TITLE"

/-- MusicData::artist for MusicMetaData. -/
def MusicMetaData.artist (m : MusicMetaData) : Option String :=
  getTag m.map "ARTIST"

/-- MusicData::album for MusicMetaData. -/
def MusicMetaData.album (m : MusicMetaData) : Option String :=
  getTag m.map "ALBUM"

/-- MusicData::tracknumber for MusicMetaData. -/
def MusicMetaData.tracknumber (m : MusicMetaData) : Option String :=
  getTag m.map "TRACKNUMBER"

/-- From<VorbisMetadata> for MusicMetaData (src/src/lib.rs lines 79-83):
keeps the tag mapping and discards the vendor string. -/
def MusicMetaData.fromVorbis (c : VorbisMetadata) : MusicMetaData :=
  ⟨c.user_comments⟩

/-- The loop body of parse_vorbis_comments (src/src/lib.rs lines 164-170):
split the decoded text on every '=', require exactly two parts, insert
the pair, and otherwise fail with InvalidData. -/
def process_comment (comments : Tags) (text : String) : Except IOErr Tags :=
  let split := splitEq text.data
  if split.length = 2 then
    .ok (insertTag comments (String.mk (split.headD []))
          (String.mk (split.getD 1 [])))
  else .error malformedCommentErr

/-- The comment-reading loop of parse_vorbis_comments (src/src/lib.rs
lines 161-171): ncomments iterations of (read a 4-byte little-endian
length, read that many bytes as text, split and insert). -/
def read_comments : Nat → Tags → ByteStream → PResult Tags
  | 0, comments, s => .ok comments s
  | n + 1, comments, s =>
    match read_u32_le s with
    | .error e => .err e
    | .ok (len, s1) =>
      match read_n len s1 with
      | .err e => .err e
      | .panicked => .panicked
      | .ok text s2 =>
        match process_comment comments text with
        | .error e => .err e
        | .ok comments1 => read_comments n comments1 s2

/-- parse_vorbis_comments (src/src/lib.rs lines 149-174): read the
little-endian vendor length and vendor string, the little-endian comment
count, then the comment entries. -/
def parse_vorbis_comments (s : ByteStream) : PResult VorbisMetadata :=
  match read_u32_le s with
  | .error e => .err e
  | .ok (len, s1) =>
    match read_n len s1 with
    | .err e => .err e
    | .panicked => .panicked
    | .ok vendor s2 =>
      match read_u32_le s2 with
      | .error e => .err e
      | .ok (ncomments, s3) =>
        match read_comments ncomments [] s3 with
        | .err e => .err e
        | .panicked => .panicked
        | .ok comments s4 => .ok ⟨vendor, comments⟩ s4

/-- The loop of search_comment_block (src/src/lib.rs lines 128-146): per
iteration, read a 4-byte block header; the last flag is byte 0 shifted
right by 7, the block type is byte 0 masked with 0b0111111 (the mask
exactly as written in the source), the size is the big-endian u32 of the
buffer with byte 0 zeroed.  If the last flag is set, fail with "no
comment block"; if the masked type equals 4, decode the comments;
otherwise consume size bytes (BufRead::consume: advances at most to the
end of the buffered data) and loop.  The fuel argument only bounds the
recursion: every iteration consumes at least the 4 header bytes, so with
the caller's fuel of one more than the stream length the fuel-zero arm
is unreachable (search_comment_block_aux_congr below proves the result
independent of any sufficient fuel). -/
def search_comment_block_aux : Nat → ByteStream → PResult VorbisMetadata
  | 0, _ => .err eofErr
  | fuel + 1, s =>
    match s with
    | b0 :: b1 :: b2 :: b3 :: rest =>
      if b0.val >>> 7 = 1 then .err noCommentErr
      else if b0.val &&& 0b0111111 = 4 then parse_vorbis_comments rest
      else search_comment_block_aux fuel
        (List.drop (read_u32_be_masked b1 b2 b3) rest)
    | _ => .err eofErr

/-- search_comment_block (src/src/lib.rs lines 128-146). -/
def search_comment_block (s : ByteStream) : PResult VorbisMetadata :=
  search_comment_block_aux (s.length + 1) s

/-- The 4-byte FLAC stream marker "fLaC". -/
def fLaC_magic : ByteStream := [0x66, 0x4C, 0x61, 0x43]

/-- is_flac_file (src/src/lib.rs lines 118-123): read 4 bytes
(UnexpectedEof on a short stream) and compare them with "fLaC". -/
def is_flac_file (s : ByteStream) : Except IOErr (Bool × ByteStream) :=
  match s with
  | a :: b :: c :: d :: rest => .ok (decide ([a, b, c, d] = fLaC_magic), rest)
  | _ => .error eofErr

/-- FlacParser::new (src/src/lib.rs lines 92-98): propagate an io::Error
from the signature read; on a signature mismatch fail with InvalidData
"could not parse as a flac file"; otherwise hold the cursor. -/
def FlacParser_new (s : ByteStream) : Except IOErr ByteStream :=
  match is_flac_file s with
  | .error e => .error e
  | .ok (true, rest) => .ok rest
  | .ok (false, _) => .error notFlacFileErr

/-- parse (src/src/lib.rs lines 108-115): on any failure of
FlacParser::new — be it a bad signature or an io::Error while reading the
signature — return InvalidData "could not parse any metadata"; otherwise
scan for the comment block and convert the result. -/
def parse (s : ByteStream) : PResult MusicMetaData :=
  match FlacParser_new s with
  | .error _ => .err noMetadataErr
  | .ok rest =>
    match search_comment_block rest with
    | .ok v s1 => .ok (MusicMetaData.fromVorbis v) s1
    | .err e => .err e
    | .panicked => .panicked

/-! Helpers for building concrete input streams. -/

/-- The bytes of an ASCII string (each scalar value taken mod 256). -/
def asciiBytes (t : String) : ByteStream :=
  t.data.map (fun c => (⟨c.toNat % 256, by omega⟩ : Byte))

/-- 4-byte little-endian encoding of a 32-bit value. -/
def u32le (n : Nat) : ByteStream :=
  [⟨n % 256, by omega⟩, ⟨n / 2 ^ 8 % 256, by omega⟩,
   ⟨n / 2 ^ 16 % 256, by omega⟩, ⟨n / 2 ^ 24 % 256, by omega⟩]

/-! Concrete input streams used by the claim theorems. -/

/-- A well-formed 15-byte comment-block body: empty vendor, one entry "K=V". -/
def c1_body : ByteStream := u32le 0 ++ u32le 1 ++ (u32le 3 ++ asciiBytes "K=V")

/-- Magic, then a type-4 block header with the last-block flag set, then
the comment body. -/
def c1_stream_last : ByteStream :=
  fLaC_magic ++ ([0x84, 0, 0, 15] : ByteStream) ++ c1_body

/-- The same stream with the last-block flag clear. -/
def c1_stream_notlast : ByteStream :=
  fLaC_magic ++ ([0x04, 0, 0, 15] : ByteStream) ++ c1_body

/-- A comment body whose declared vendor length 10 exceeds the 2 bytes left. -/
def c2_vendor_trunc : ByteStream := u32le 10 ++ asciiBytes "ab"

/-- A comment body whose declared entry length 10 exceeds the 2 bytes left. -/
def c2_entry_trunc : ByteStream := u32le 0 ++ u32le 1 ++ (u32le 10 ++ asciiBytes "ab")

/-- A 19-byte comment-shaped body: empty vendor, one entry "PAD=YES". -/
def c3_body : ByteStream := u32le 0 ++ u32le 1 ++ (u32le 7 ++ asciiBytes "PAD=YES")

/-- Magic, then a block header of type 68 (0x44, last-block flag clear),
then a comment-shaped body. -/
def c3_stream : ByteStream :=
  fLaC_magic ++ ([0x44, 0, 0, 19] : ByteStream) ++ c3_body

/-- A comment body with the single entry "A=B=C" (two separators). -/
def c4_body : ByteStream := u32le 0 ++ u32le 1 ++ (u32le 5 ++ asciiBytes "A=B=C")

/-- Magic, then a single non-comment block with the last-block flag set. -/
def c5_nocomment : ByteStream := fLaC_magic ++ ([0x80, 0, 0, 0] : ByteStream)

/-- Magic, a type-4 header, and a comment body whose entry "NOEQ" has no
separator. -/
def c5_malformed : ByteStream :=
  fLaC_magic ++ ([0x04, 0, 0, 12] : ByteStream) ++
    (u32le 0 ++ u32le 1 ++ (u32le 4 ++ asciiBytes "NOEQ"))

/-- Magic and a type-4 header with nothing after it. -/
def c5_trunc : ByteStream := fLaC_magic ++ ([0x04, 0, 0, 0] : ByteStream)

/-- A 15-byte comment-block body: empty vendor, one entry "C=D". -/
def c6_body : ByteStream := u32le 0 ++ u32le 1 ++ (u32le 3 ++ asciiBytes "C=D")

/-- A type-4 block header followed by its comment body. -/
def c6_comment_part : ByteStream := ([0x04, 0, 0, 15] : ByteStream) ++ c6_body

/-- A block of type 68 (not type 4 in the 7-bit field) with declared
length 2 and body bytes 0xFF 0xFF, followed by the comment block. -/
def c6_counter_stream : ByteStream :=
  ([0x44, 0, 0, 2] : ByteStream) ++ ([0xFF, 0xFF] : ByteStream) ++ c6_comment_part

/-- The comment-block body of the spec's test property 3: vendor length 9,
vendor "test-lib" padded to 9 bytes, two entries "TITLE=Song" and
"ARTIST=Band". -/
def c7_body : ByteStream :=
  u32le 9 ++ asciiBytes "test-lib " ++ u32le 2 ++
    (u32le 10 ++ asciiBytes "TITLE=Song") ++ (u32le 11 ++ asciiBytes "ARTIST=Band")

/-- Magic, a type-4 header of length 46, and the body above. -/
def c7_stream : ByteStream :=
  fLaC_magic ++ ([0x04, 0, 0, 46] : ByteStream) ++ c7_body

/-- The decode result expected for c7_body. -/
def c7_expected : VorbisMetadata :=
  ⟨"test-lib ", [("TITLE", "Song"), ("ARTIST", "Band")]⟩

/-- A comment body with the entries "X=1" then "X=2" in order. -/
def c8_body : ByteStream :=
  u32le 0 ++ u32le 2 ++ (u32le 3 ++ asciiBytes "X=1") ++ (u32le 3 ++ asciiBytes "X=2")

/-- A well-formed comment body with a single entry "K=V". -/
def c9_body : ByteStream := u32le 0 ++ u32le 1 ++ (u32le 3 ++ asciiBytes "K=V")

/-- A comment body with the single entry "=VALUE" (empty key). -/
def c10_empty_key : ByteStream := u32le 0 ++ u32le 1 ++ (u32le 6 ++ asciiBytes "=VALUE")

/-- A comment body with the single entry "KEY=" (empty value). -/
def c10_empty_value : ByteStream := u32le 0 ++ u32le 1 ++ (u32le 4 ++ asciiBytes "KEY=")

/-- A comment body with the single entry "=" (empty key and value). -/
def c10_lone_sep : ByteStream := u32le 0 ++ u32le 1 ++ (u32le 1 ++ asciiBytes "=")

/-- A comment body declaring zero comments. -/
def c10_zero_comments : ByteStream := u32le 0 ++ u32le 0

end Flacparse

namespace Flacparse

/-- Claim C1: the scanner checks the last-block flag before the block type
(src/src/lib.rs lines 138-143), so a stream whose type-4 comment block
carries the last-block flag is rejected with the "no comment block"
error even though a comment block is present; with the flag clear the
very same block decodes. -/
theorem C1_last_type4_rejected :
    parse c1_stream_last = .err noCommentErr ∧
    parse c1_stream_notlast = .ok ⟨[("K", "V")]⟩ [] := by decide

/-- Claim C2: a declared length (vendor length or per-comment length) that
exceeds the bytes remaining does not produce a Truncated error: the
assert_eq! in read_n (src/src/lib.rs line 182) fires and the parse
panics. -/
theorem C2_truncated_length_panics :
    parse_vorbis_comments c2_vendor_trunc = .panicked ∧
    parse_vorbis_comments c2_entry_trunc = .panicked := by decide

/-- Claim C3: the scanner masks the header byte with 0b0111111 (6 bits, not 7;
src/src/lib.rs line 136), so the 7-bit block type 68 (header byte 0x44)
also satisfies the blocktype == 4 test and is handed to the comment
decoder, which here decodes its body. -/
theorem C3_type68_handoff :
    (0x44 : Nat) >>> 7 = 0 ∧
    (0x44 : Nat) &&& 0x7F = 68 ∧
    (0x44 : Nat) &&& 0b0111111 = 4 ∧
    parse c3_stream = .ok ⟨[("PAD", "YES")]⟩ [] := by decide

/-- Claim C4 counterexample: the decoder splits on every '=' and demands
exactly two parts (src/src/lib.rs lines 164-169), so the entry "A=B=C" —
whose text does contain '=' — is rejected with MalformedData instead of
decoding to the pair ("A", "B=C"). -/
theorem C4_counterexample_two_separators :
    '=' ∈ ("A=B=C" : String).data ∧
    parse_vorbis_comments c4_body = .err malformedCommentErr := by decide

/-- Claim C5 counterexample: an underlying I/O failure while reading the
signature (an empty stream; read_exact fails with UnexpectedEof) is
collapsed by parse (src/src/lib.rs lines 110-114) into the very same
error value that a wrong signature produces, so the not-a-FLAC-file case
and the underlying-I/O-failure case are not distinguishable. -/
theorem C5_counterexample_io_vs_notflac :
    parse ([] : ByteStream) = .err noMetadataErr ∧
    parse (asciiBytes "XXXX") = .err noMetadataErr ∧
    parse ([] : ByteStream) = parse (asciiBytes "XXXX") := by decide

/-- Claim C6 counterexample: a block of 7-bit type 68 (not type 4) with the
last-block flag clear and declared length 2 is not skipped: because of
the 6-bit mask (src/src/lib.rs line 136) the scanner hands its body to
the comment decoder, which here panics, whereas decoding the stream
without that block succeeds. -/
theorem C6_counterexample_type68_not_skipped :
    (0x44 : Nat) &&& 0x7F = 68 ∧
    search_comment_block c6_counter_stream = .panicked ∧
    search_comment_block c6_comment_part = .ok ⟨"", [("C", "D")]⟩ [] := by decide

/-- Claim C7: decoding the spec's concrete comment block (vendor length 9,
vendor "test-lib" padded, entries "TITLE=Song" and "ARTIST=Band") yields
exactly the mapping TITLE -> Song, ARTIST -> Band; the facade lookups
return Song for title and Band for artist and none for album and
tracknumber, both on the Vorbis result and on the converted generic
result of the full parse. -/
theorem C7_concrete_decode :
    parse_vorbis_comments c7_body = .ok c7_expected [] ∧
    c7_expected.user_comments = [("TITLE", "Song"), ("ARTIST", "Band")] ∧
    c7_expected.title = some "Song" ∧
    c7_expected.artist = some "Band" ∧
    c7_expected.album = none ∧
    c7_expected.tracknumber = none ∧
    parse c7_stream = .ok (MusicMetaData.fromVorbis c7_expected) [] ∧
    (MusicMetaData.fromVorbis c7_expected).title = some "Song" ∧
    (MusicMetaData.fromVorbis c7_expected).artist = some "Band" ∧
    (MusicMetaData.fromVorbis c7_expected).album = none ∧
    (MusicMetaData.fromVorbis c7_expected).tracknumber = none := by decide

/-- Claim C10: entries with an empty key, an empty value, or both decode
successfully to the pairs ("", "VALUE"), ("KEY", "") and ("", ""), and a
declared comment count of zero decodes to an empty tag mapping. -/
theorem C10_empty_fields_accepted :
    parse_vorbis_comments c10_empty_key = .ok ⟨"", [("", "VALUE")]⟩ [] ∧
    parse_vorbis_comments c10_empty_value = .ok ⟨"", [("KEY", "")]⟩ [] ∧
    parse_vorbis_comments c10_lone_sep = .ok ⟨"", [("", "")]⟩ [] ∧
    parse_vorbis_comments c10_zero_comments = .ok ⟨"", []⟩ [] := by decide

/-! ## Lemmas about the tag mapping -/

/-- Replacing the binding of k in a map that contains k puts (k, v) at
the first occurrence of k, so lookup finds exactly it. -/
theorem find?_map_insert_eq (k v : String) (m : Tags)
    (h : m.any (fun p => p.1 == k) = true) :
    (m.map (fun p => if p.1 == k then (k, v) else p)).find? (fun p => p.1 == k) =
      some (k, v) := by
  induction m with
  | nil => simp at h
  | cons p m ih =>
    by_cases hp : (p.1 == k) = true
    · rw [List.map_cons, if_pos hp, List.find?_cons_of_pos]
      simp
    · have h' : m.any (fun p => p.1 == k) = true := by
        simpa [List.any_cons, hp] using h
      rw [List.map_cons, if_neg hp, List.find?_cons_of_neg _ (by simpa using hp)]
      exact ih h'

/-- Appending a fresh binding to a map without k makes lookup find it. -/
theorem find?_append_of_not_any (k v : String) (m : Tags)
    (h : m.any (fun p => p.1 == k) = false) :
    (m ++ [(k, v)]).find? (fun p => p.1 == k) = some (k, v) := by
  induction m with
  | nil => simp
  | cons p m ih =>
    have hp : (p.1 == k) = false := by
      rcases List.any_eq_false.mp h p (List.mem_cons_self p m) with h'
      simpa using h'
    rw [List.cons_append, List.find?_cons_of_neg _ (by simp [hp])]
    exact ih (by
      apply List.any_eq_false.mpr
      intro q hq
      exact List.any_eq_false.mp h q (List.mem_cons_of_mem p hq))

/-- HashMap::insert followed by HashMap::get of the same key returns the
inserted value, whether or not the key was already bound. -/
theorem getTag_insertTag_self (m : Tags) (k v : String) :
    getTag (insertTag m k v) k = some v := by
  unfold getTag insertTag
  by_cases h : m.any (fun p => p.1 == k) = true
  · rw [if_pos h, find?_map_insert_eq k v m h]
    rfl
  · rw [if_neg h, find?_append_of_not_any k v m (Bool.not_eq_true _ ▸ h)]
    rfl

/-- Membership after HashMap::insert: every binding either was already
present or is the inserted pair. -/
theorem mem_insertTag {m : Tags} {k v : String} {kv : String × String}
    (h : kv ∈ insertTag m k v) : kv ∈ m ∨ kv = (k, v) := by
  unfold insertTag at h
  by_cases hc : m.any (fun p => p.1 == k) = true
  · rw [if_pos hc] at h
    rcases List.mem_map.mp h with ⟨p, hp, he⟩
    by_cases hpk : (p.1 == k) = true
    · right
      rw [← he, if_pos hpk]
    · left
      rw [← he, if_neg hpk]
      exact hp
  · rw [if_neg hc] at h
    rcases List.mem_append.mp h with h1 | h2
    · left; exact h1
    · right; simpa using h2

/-! ## Lemmas about the split of a comment entry -/

/-- splitEq never returns an empty list of pieces. -/
theorem splitEq_ne_nil (cs : List Char) : splitEq cs ≠ [] := by
  cases cs with
  | nil => simp [splitEq]
  | cons c cs =>
    unfold splitEq
    by_cases h : c = '='
    · simp [h]
    · rw [if_neg h]
      cases hs : splitEq cs <;> simp

/-- No piece produced by splitEq contains the separator. -/
theorem splitEq_mem_no_sep (cs : List Char) (p : List Char)
    (hp : p ∈ splitEq cs) : '=' ∉ p := by
  induction cs generalizing p with
  | nil =>
    simp [splitEq] at hp
    subst hp
    simp
  | cons c cs ih =>
    unfold splitEq at hp
    by_cases h : c = '='
    · rw [if_pos h] at hp
      rcases List.mem_cons.mp hp with h1 | h2
      · subst h1; simp
      · exact ih p h2
    · rw [if_neg h] at hp
      cases hs : splitEq cs with
      | nil => exact absurd hs (splitEq_ne_nil cs)
      | cons q qs =>
        rw [hs] at hp
        rcases List.mem_cons.mp hp with h1 | h2
        · subst h1
          intro hmem
          rcases List.mem_cons.mp hmem with h3 | h4
          · exact h h3.symm
          · exact ih q (hs ▸ List.mem_cons_self q qs) h4
        · exact ih p (hs ▸ List.mem_cons.mpr (Or.inr h2))

/-- The number of pieces is one more than the number of separators. -/
theorem splitEq_length (cs : List Char) :
    (splitEq cs).length = cs.count '=' + 1 := by
  induction cs with
  | nil => simp [splitEq]
  | cons c cs ih =>
    by_cases h : c = '='
    · simp [splitEq, h, List.count_cons, ih]
    · cases hs : splitEq cs with
      | nil => exact absurd hs (splitEq_ne_nil cs)
      | cons q qs =>
        rw [hs] at ih
        simp [splitEq, h, hs, List.count_cons]
        simpa using ih

/-- With no separator, splitEq returns the whole text as the one piece. -/
theorem splitEq_count_zero (cs : List Char) (h : cs.count '=' = 0) :
    splitEq cs = [cs] := by
  induction cs with
  | nil => simp [splitEq]
  | cons c cs ih =>
    have hc : ¬(c = '=') := by
      intro hc
      subst hc
      simp [List.count_cons] at h
    have h0 : cs.count '=' = 0 := by
      simpa [List.count_cons, hc] using h
    simp [splitEq, hc, ih h0]

/-- With exactly one separator, splitEq returns the text before it and
the text after it. -/
theorem splitEq_count_one (cs : List Char) (h : cs.count '=' = 1) :
    splitEq cs = [cs.takeWhile (fun c => c != '='),
                  (cs.dropWhile (fun c => c != '=')).tail] := by
  induction cs with
  | nil => simp at h
  | cons c cs ih =>
    by_cases hc : c = '='
    · subst hc
      have h0 : cs.count '=' = 0 := by simpa [List.count_cons] using h
      simp [splitEq, splitEq_count_zero cs h0, List.takeWhile_cons,
        List.dropWhile_cons]
    · have h1 : cs.count '=' = 1 := by simpa [List.count_cons, hc] using h
      simp [splitEq, hc, ih h1, List.takeWhile_cons, List.dropWhile_cons]

/-! ## Lemmas about the scanner loop and its fuel -/

/-- One unfolding step of the scanner loop on a full header. -/
theorem search_comment_block_aux_cons (fuel : Nat) (b0 b1 b2 b3 : Byte)
    (rest : ByteStream) :
    search_comment_block_aux (fuel + 1) (b0 :: b1 :: b2 :: b3 :: rest) =
      if b0.val >>> 7 = 1 then .err noCommentErr
      else if b0.val &&& 0b0111111 = 4 then parse_vorbis_comments rest
      else search_comment_block_aux fuel
        (List.drop (read_u32_be_masked b1 b2 b3) rest) := rfl

/-- The scanner loop is fuel-independent for any fuel above the stream
length: each iteration consumes at least the 4 header bytes, so the
wrapper's fuel of one more than the stream length is never exhausted. -/
theorem search_comment_block_aux_congr :
    ∀ (f1 f2 : Nat) (s : ByteStream), s.length < f1 → s.length < f2 →
    search_comment_block_aux f1 s = search_comment_block_aux f2 s := by
  intro f1
  induction f1 with
  | zero =>
    intro f2 s h1 h2
    exact absurd h1 (Nat.not_lt_zero _)
  | succ f1 ih =>
    intro f2 s h1 h2
    cases f2 with
    | zero => exact absurd h2 (Nat.not_lt_zero _)
    | succ f2 =>
      match s with
      | [] => rfl
      | [b0] => rfl
      | [b0, b1] => rfl
      | [b0, b1, b2] => rfl
      | b0 :: b1 :: b2 :: b3 :: rest =>
        rw [search_comment_block_aux_cons, search_comment_block_aux_cons]
        by_cases hl : b0.val >>> 7 = 1
        · rw [if_pos hl, if_pos hl]
        · rw [if_neg hl, if_neg hl]
          by_cases ht : b0.val &&& 0b0111111 = 4
          · rw [if_pos ht, if_pos ht]
          · rw [if_neg ht, if_neg ht]
            have hd : (List.drop (read_u32_be_masked b1 b2 b3) rest).length ≤
                rest.length := by
              rw [List.length_drop]
              omega
            have hr1 : rest.length + 1 + 1 + 1 < f1 := by simpa using h1
            have hr2 : rest.length + 1 + 1 + 1 < f2 := by simpa using h2
            exact ih f2 _ (by omega) (by omega)

/-! ## Remaining claim theorems -/

/-- Claim C4, amended: the decoder splits the decoded text on every '='
and requires exactly two parts, so an entry decodes — to the text before
the single separator as key and the text after it as value, inserted
into the mapping — exactly when the text contains exactly one '=';
with no '=' or with more than one '=' it fails with MalformedData. -/
theorem C4_split_exactly_one_separator (m : Tags) (text : String) :
    (text.data.count '=' = 1 →
      process_comment m text =
        .ok (insertTag m (String.mk (text.data.takeWhile (fun c => c != '=')))
              (String.mk ((text.data.dropWhile (fun c => c != '=')).tail)))) ∧
    (text.data.count '=' ≠ 1 →
      process_comment m text = .error malformedCommentErr) := by
  constructor
  · intro h
    simp [process_comment, splitEq_count_one _ h]
  · intro h
    have hl : ¬((splitEq text.data).length = 2) := by
      rw [splitEq_length]
      omega
    simp [process_comment, if_neg hl]

/-- Witness for C4: the entry "A=B" decodes to the pair ("A", "B") and
the entry "A=B=C" is rejected. -/
theorem C4_split_exactly_one_separator_witness :
    ("A=B" : String).data.count '=' = 1 ∧
    process_comment [] "A=B" =
      .ok (insertTag []
            (String.mk (("A=B" : String).data.takeWhile (fun c => c != '=')))
            (String.mk ((("A=B" : String).data.dropWhile (fun c => c != '=')).tail))) ∧
    ("A=B=C" : String).data.count '=' ≠ 1 ∧
    process_comment [] "A=B=C" = .error malformedCommentErr :=
  ⟨by decide, (C4_split_exactly_one_separator [] "A=B").1 (by decide),
   by decide, (C4_split_exactly_one_separator [] "A=B=C").2 (by decide)⟩

/-- Claim C5, amended: every stream whose first four bytes are not fLaC
fails with the InvalidData error "could not parse any metadata" (the
value the implementation uses for the not-a-FLAC case, because parse
discards the specific error of FlacParser::new); the no-comment-block,
malformed-comment and truncation failures produce pairwise distinct
error values, all distinct from that one — but an underlying I/O failure
while reading the signature produces the same error value as a wrong
signature (see the C5 counterexample), so those two cases are not
distinguished. -/
theorem C5_error_classes :
    (∀ s : ByteStream, s.take 4 ≠ fLaC_magic → parse s = .err noMetadataErr) ∧
    parse c5_nocomment = .err noCommentErr ∧
    parse c5_malformed = .err malformedCommentErr ∧
    parse c5_trunc = .err eofErr ∧
    noMetadataErr ≠ noCommentErr ∧ noMetadataErr ≠ malformedCommentErr ∧
    noMetadataErr ≠ eofErr ∧ noCommentErr ≠ malformedCommentErr ∧
    noCommentErr ≠ eofErr ∧ malformedCommentErr ≠ eofErr := by
  refine ⟨?_, by decide, by decide, by decide, by decide, by decide, by decide,
    by decide, by decide, by decide⟩
  intro s h
  match s with
  | [] => rfl
  | [a] => rfl
  | [a, b] => rfl
  | [a, b, c] => rfl
  | a :: b :: c :: d :: rest =>
    have ht : List.take 4 (a :: b :: c :: d :: rest) = [a, b, c, d] := rfl
    have h4 : ¬([a, b, c, d] = fLaC_magic) := fun he => h (ht.trans he)
    simp only [parse, FlacParser_new, is_flac_file]
    rw [decide_eq_false h4]

/-- Witness for C5: the stream "XXXX" does not start with fLaC and parse
rejects it with the generic InvalidData error. -/
theorem C5_error_classes_witness :
    (asciiBytes "XXXX").take 4 ≠ fLaC_magic ∧
    parse (asciiBytes "XXXX") = .err noMetadataErr :=
  ⟨by decide, C5_error_classes.1 (asciiBytes "XXXX") (by decide)⟩

/-- Claim C6, amended: a metadata block whose header byte has the
last-block flag clear and whose low six bits are not 4 — which covers
every true block type except 4 and 68, in particular PADDING (type 1) —
followed by a body of exactly the declared length is skipped without
interpretation: scanning the stream with the block equals scanning the
stream without it.  (Blocks of 7-bit type 68 are not skipped; see the C6
counterexample.) -/
theorem C6_nontype4_block_skipped (b0 b1 b2 b3 : Byte) (body rest : ByteStream)
    (h0 : b0.val >>> 7 ≠ 1) (h4 : b0.val &&& 0b0111111 ≠ 4)
    (hlen : body.length = read_u32_be_masked b1 b2 b3) :
    search_comment_block (b0 :: b1 :: b2 :: b3 :: (body ++ rest)) =
      search_comment_block rest := by
  have hdrop : List.drop (read_u32_be_masked b1 b2 b3) (body ++ rest) = rest := by
    rw [← hlen]
    exact List.drop_left body rest
  unfold search_comment_block
  rw [show (b0 :: b1 :: b2 :: b3 :: (body ++ rest)).length =
        (body ++ rest).length + 1 + 1 + 1 + 1 from rfl,
      search_comment_block_aux_cons, if_neg h0, if_neg h4, hdrop]
  apply search_comment_block_aux_congr
  · have : rest.length ≤ (body ++ rest).length := by
      rw [List.length_append]
      omega
    omega
  · omega

/-- Witness for C6: a PADDING block (type 1, last flag clear, length 2)
followed by the comment block of c6_comment_part is skipped. -/
theorem C6_nontype4_block_skipped_witness :
    ((0x01 : Byte).val >>> 7 ≠ 1) ∧ ((0x01 : Byte).val &&& 0b0111111 ≠ 4) ∧
    ([0, 0] : ByteStream).length = read_u32_be_masked 0 0 2 ∧
    search_comment_block
        ((0x01 : Byte) :: (0 : Byte) :: (0 : Byte) :: (2 : Byte) ::
          (([0, 0] : ByteStream) ++ c6_comment_part)) =
      search_comment_block c6_comment_part :=
  ⟨by decide, by decide, by decide,
   C6_nontype4_block_skipped 0x01 0 0 2 [0, 0] c6_comment_part
     (by decide) (by decide) (by decide)⟩

/-- Claim C8: a later comment entry with an existing key overwrites the
earlier value — for any prior tag mapping, running the comment loop on
the two entries "X=1" then "X=2" binds "X" to "2", and decoding the
concrete comment block with those two entries yields exactly the mapping
with "X" bound to "2". -/
theorem C8_duplicate_key_last_wins :
    (∀ m : Tags,
      read_comments 2 m
          ((u32le 3 ++ asciiBytes "X=1") ++ (u32le 3 ++ asciiBytes "X=2")) =
        .ok (insertTag (insertTag m "X" "1") "X" "2") [] ∧
      getTag (insertTag (insertTag m "X" "1") "X" "2") "X" = some "2") ∧
    parse_vorbis_comments c8_body = .ok ⟨"", [("X", "2")]⟩ [] :=
  ⟨fun m => ⟨rfl, getTag_insertTag_self _ "X" "2"⟩, by decide⟩

/-- Witness for C8: the loop property instantiated at the empty mapping. -/
theorem C8_duplicate_key_last_wins_witness :
    read_comments 2 []
        ((u32le 3 ++ asciiBytes "X=1") ++ (u32le 3 ++ asciiBytes "X=2")) =
      .ok (insertTag (insertTag [] "X" "1") "X" "2") [] ∧
    getTag (insertTag (insertTag [] "X" "1") "X" "2") "X" = some "2" :=
  C8_duplicate_key_last_wins.1 []

/-- A successfully processed comment entry only adds separator-free
strings to a separator-free tag mapping. -/
theorem process_comment_clean {m m' : Tags} {text : String}
    (h : process_comment m text = .ok m')
    (hm : ∀ kv ∈ m, '=' ∉ kv.1.data ∧ '=' ∉ kv.2.data) :
    ∀ kv ∈ m', '=' ∉ kv.1.data ∧ '=' ∉ kv.2.data := by
  unfold process_comment at h
  by_cases hl : (splitEq text.data).length = 2
  · rcases List.length_eq_two.mp hl with ⟨a, b, hab⟩
    rw [if_pos hl, hab] at h
    simp only [List.headD, List.getD] at h
    injection h with h1
    subst h1
    intro kv hkv
    rcases mem_insertTag hkv with h1 | h2
    · exact hm kv h1
    · subst h2
      refine ⟨?_, ?_⟩
      · exact splitEq_mem_no_sep _ a (hab ▸ List.mem_cons_self a [b])
      · exact splitEq_mem_no_sep _ b
          (hab ▸ List.mem_cons.mpr (Or.inr (List.mem_cons_self b [])))
  · rw [if_neg hl] at h
    cases h

/-- The comment loop preserves separator-freedom of the tag mapping. -/
theorem read_comments_clean :
    ∀ (n : Nat) (m : Tags) (s : ByteStream) (m' : Tags) (s' : ByteStream),
    read_comments n m s = .ok m' s' →
    (∀ kv ∈ m, '=' ∉ kv.1.data ∧ '=' ∉ kv.2.data) →
    ∀ kv ∈ m', '=' ∉ kv.1.data ∧ '=' ∉ kv.2.data := by
  intro n
  induction n with
  | zero =>
    intro m s m' s' h hm
    unfold read_comments at h
    injection h with h1 h2
    subst h1
    exact hm
  | succ n ih =>
    intro m s m' s' h hm
    unfold read_comments at h
    split at h
    · cases h
    · split at h
      · cases h
      · cases h
      · split at h
        · cases h
        · exact ih _ _ _ _ h (process_comment_clean (by assumption) hm)

/-- Claim C9: in every tag mapping produced by a successful comment-block
decode, no key and no value contains the '=' character. -/
theorem C9_no_separator_in_decoded_tags (s s' : ByteStream)
    (md : VorbisMetadata) (h : parse_vorbis_comments s = .ok md s') :
    ∀ kv ∈ md.user_comments, '=' ∉ kv.1.data ∧ '=' ∉ kv.2.data := by
  unfold parse_vorbis_comments at h
  split at h
  · cases h
  · split at h
    · cases h
    · cases h
    · split at h
      · cases h
      · split at h
        · cases h
        · cases h
        · injection h with h5 h6
          subst h5
          exact read_comments_clean _ _ _ _ _ (by assumption) (by simp)

/-- Witness for C9: the invariant applied to the concrete decode of a
block with the single entry "K=V". -/
theorem C9_no_separator_in_decoded_tags_witness :
    '=' ∉ ("K" : String).data ∧ '=' ∉ ("V" : String).data :=
  C9_no_separator_in_decoded_tags c9_body [] ⟨"", [("K", "V")]⟩ (by decide)
    ("K", "V") (by simp)

end Flacparse
